import Mathlib

/-!
Verification of the Insight Triage Engine of the `leanit` repository.

The definitions below are a shallow embedding of the TypeScript source:
  * the shared data types (`types/index.ts`),
  * the gesture classifier (`SwipeableCard.handleDragEnd`),
  * the cursor-mode deck controller (`CardStack`),
  * the filter-mode deck controller (`useInsightInteraction`),
  * the progress simulator of `useAnalysis.analyze`, modelled as an
    event-driven state machine whose events are the interval ticks and the
    settlement (fulfilment or rejection) of the background request.

JavaScript `undefined` resulting from out-of-range array indexing is
modelled with `Option`; a JS `Set` of strings is modelled as an
insertion-ordered duplicate-free list, which is how V8 iterates it.
-/

namespace LeanIt

/-- `DeepDiveContent.local_context` from `types/index.ts`. -/
structure LocalContext where
  before : String
  after : String
deriving DecidableEq, Repr

/-- `DeepDiveContent` from `types/index.ts`. -/
structure DeepDiveContent where
  extended_explanation : String
  key_arguments : List String
  local_context : LocalContext
deriving DecidableEq, Repr

/-- `Insight` from `types/index.ts`. -/
structure Insight where
  id : String
  rank : Nat
  title : String
  core_point : String
  supporting_context : Option String
  deep_dive_content : Option DeepDiveContent
  is_top_five : Bool
deriving DecidableEq, Repr

/-- `ProgressStep` from `types/index.ts`. -/
inductive ProgressStep where
  | idle
  | fetching
  | transcript
  | analyzing
  | generating
  | complete
deriving DecidableEq, Repr

/-- `AnalysisProgress` from `types/index.ts`. -/
structure AnalysisProgress where
  step : ProgressStep
  message : String
  percent : Nat
deriving DecidableEq, Repr

/-! ## Gesture classifier (`SwipeableCard.handleDragEnd`)

Drag offsets and velocities are real-valued in the browser; we model them
as rationals.  The source reads:

```
const threshold = 100;
if (offset < -threshold || velocity < -500) { onSwipeLeft(); }
else if (offset > threshold || velocity > 500) { onSwipeRight(); }
```

Swiping left skips the card and swiping right saves ("dives into") it;
falling through both branches leaves the deck unchanged. -/

/-- Outcome of a released drag: no decision, skip (left), or save (right). -/
inductive SwipeDecision where
  | noDecision
  | skip
  | save
deriving DecidableEq, Repr

/-- The classifier of `SwipeableCard.handleDragEnd`, with the source's
thresholds inlined (`threshold = 100`, speed `500`). -/
def handleDragEnd (offset velocity : ℚ) : SwipeDecision :=
  if offset < -100 ∨ velocity < -500 then .skip
  else if offset > 100 ∨ velocity > 500 then .save
  else .noDecision

/-! ## Cursor-mode deck controller (`CardStack.tsx`)

The component state of `CardStack`.  JS out-of-range indexing
(`allInsights[currentIndex]` past the end) yields `undefined`, so the
slot recorded by a decision is an `Option Insight` and the skip/save
records are lists of such slots. -/

/-- The TS union `'skip' | 'save'` used by `CardStack.lastAction` and the
decision sequences fed to the swipe handlers. -/
inductive Decision where
  | skip
  | save
deriving DecidableEq, Repr

/-- The `lastAction` slot of `CardStack`: `{ type: 'skip' | 'save', insight }`. -/
structure LastAction where
  type : Decision
  insight : Option Insight
deriving DecidableEq, Repr

/-- The `useState` cells of `CardStack`, plus its two props. -/
structure CardStackState where
  topInsights : List Insight
  additionalInsights : List Insight
  currentIndex : Nat
  showingAdditional : Bool
  skippedInsights : List (Option Insight)
  savedInsights : List (Option Insight)
  selectedInsight : Option Insight
  lastAction : Option LastAction
deriving DecidableEq, Repr

/-- `allInsights` of `CardStack`: the working sequence, secondary tier
appended once revealed. -/
def allInsights (s : CardStackState) : List Insight :=
  if s.showingAdditional then s.topInsights ++ s.additionalInsights
  else s.topInsights

/-- `CardStack.handleSwipeLeft`: record a skip and advance the cursor. -/
def handleSwipeLeft (s : CardStackState) : CardStackState :=
  let skipped := (allInsights s).get? s.currentIndex
  { s with
    skippedInsights := s.skippedInsights ++ [skipped]
    lastAction := some ⟨.skip, skipped⟩
    currentIndex := s.currentIndex + 1 }

/-- `CardStack.handleSwipeRight`: record a save, open the deep dive on the
saved insight, and advance the cursor. -/
def handleSwipeRight (s : CardStackState) : CardStackState :=
  let saved := (allInsights s).get? s.currentIndex
  { s with
    savedInsights := s.savedInsights ++ [saved]
    lastAction := some ⟨.save, saved⟩
    selectedInsight := saved
    currentIndex := s.currentIndex + 1 }

/-- `CardStack.handleUndo`: one-shot reversal of the stored last action.
`slice(0, -1)` on the JS array is `List.dropLast`. -/
def handleUndo (s : CardStackState) : CardStackState :=
  match s.lastAction with
  | some la =>
    if s.currentIndex > 0 then
      { s with
        currentIndex := s.currentIndex - 1
        skippedInsights :=
          if la.type = .skip then s.skippedInsights.dropLast else s.skippedInsights
        savedInsights :=
          if la.type = .skip then s.savedInsights else s.savedInsights.dropLast
        lastAction := none }
    else s
  | none => s

/-- `CardStack.handleShowMore`: reveal the secondary tier. -/
def handleShowMore (s : CardStackState) : CardStackState :=
  { s with showingAdditional := true }

/-- `isFinished` of `CardStack`. -/
def isFinished (s : CardStackState) : Bool :=
  s.currentIndex ≥ (allInsights s).length

/-- Apply one decision to the `CardStack` state: skip routes to the left
swipe handler, save to the right one, as the action buttons and
`SwipeableCard` callbacks do. -/
def decideStep (d : Decision) (s : CardStackState) : CardStackState :=
  match d with
  | .skip => handleSwipeLeft s
  | .save => handleSwipeRight s

/-- Apply a sequence of decisions left to right. -/
def runDecisions (ds : List Decision) (s : CardStackState) : CardStackState :=
  ds.foldl (fun t d => decideStep d t) s

/-- Identifiers occurring in a skip/save record (`undefined` slots carry
no identifier). -/
def recordIds (r : List (Option Insight)) : List String :=
  r.filterMap (fun o => o.map Insight.id)

/-! ## Filter-mode deck controller (`useInsightInteraction`)

A JS `Set<string>` is modelled as an insertion-ordered list without
duplicates; `new Set([...Array.from(prev), id])` keeps `prev` unchanged
when `id` is already a member and appends it otherwise, and
`Set.prototype.delete` removes the member, which for a duplicate-free
list is `List.erase`. -/

/-- Insertion into the modelled `Set<string>`. -/
def setInsert (l : List String) (id : String) : List String :=
  if id ∈ l then l else l ++ [id]

/-- The `useState` cells of `useInsightInteraction`, plus its two
arguments. -/
structure InteractionState where
  topInsights : List Insight
  additionalInsights : List Insight
  skippedIds : List String
  expandedId : Option String
  showingAdditional : Bool
  lastSkippedId : Option String
deriving DecidableEq, Repr

/-- `allInsights` of `useInsightInteraction`. -/
def allInsightsFilter (s : InteractionState) : List Insight :=
  if s.showingAdditional then s.topInsights ++ s.additionalInsights
  else s.topInsights

/-- `visibleInsights` of `useInsightInteraction`: working sequence minus
the skipped identifiers, in working-sequence order. -/
def visibleInsights (s : InteractionState) : List Insight :=
  (allInsightsFilter s).filter (fun i => ¬ i.id ∈ s.skippedIds)

/-- `useInsightInteraction.skipInsight`. -/
def skipInsight (id : String) (s : InteractionState) : InteractionState :=
  { s with
    skippedIds := setInsert s.skippedIds id
    lastSkippedId := some id
    expandedId := if s.expandedId = some id then none else s.expandedId }

/-- `useInsightInteraction.undoSkip`. -/
def undoSkip (s : InteractionState) : InteractionState :=
  match s.lastSkippedId with
  | some i =>
    { s with
      skippedIds := s.skippedIds.erase i
      lastSkippedId := none }
  | none => s

/-- `useInsightInteraction.expandInsight`. -/
def expandInsight (id : String) (s : InteractionState) : InteractionState :=
  { s with expandedId := some id }

/-- `useInsightInteraction.collapseInsight`. -/
def collapseInsight (s : InteractionState) : InteractionState :=
  { s with expandedId := none }

/-- `useInsightInteraction.showMore`. -/
def showMore (s : InteractionState) : InteractionState :=
  { s with showingAdditional := true }

/-- `skippedCount` of `useInsightInteraction` (`skippedIds.size`). -/
def skippedCount (s : InteractionState) : Nat :=
  s.skippedIds.length

/-- `hasMore` of `useInsightInteraction`. -/
def hasMore (s : InteractionState) : Bool :=
  !s.showingAdditional && !s.additionalInsights.isEmpty

/-! ## Progress simulator (`useAnalysis.analyze`)

`analyze` is an async function: it synchronously resets the hook state,
publishes the `fetching` progress entry, registers a 5-second interval,
and awaits the request.  We embed it as a state machine whose events are
the interval ticks and the settlement of the request.  The interval
callback runs only while the interval has not been cleared, which the
`timerActive` flag tracks; crucially, the source clears the interval only
on the fulfilment path (after the `await`), not in the `catch` block. -/

/-- `initialProgress` from `useAnalysis.ts`. -/
def initialProgress : AnalysisProgress :=
  { step := .idle, message := "", percent := 0 }

/-- The `progressSteps` record from `useAnalysis.ts`: display message and
percentage for every phase. -/
def progressSteps (p : ProgressStep) : AnalysisProgress :=
  match p with
  | .idle => { step := .idle, message := "", percent := 0 }
  | .fetching => { step := .fetching, message := "Fetching video information...", percent := 10 }
  | .transcript => { step := .transcript, message := "Getting transcript...", percent := 25 }
  | .analyzing => { step := .analyzing, message := "Analyzing content...", percent := 50 }
  | .generating => { step := .generating, message := "Generating insights...", percent := 75 }
  | .complete => { step := .complete, message := "Done!", percent := 100 }

/-- The `progressUpdates` array of `analyze`. -/
def progressUpdates : List ProgressStep :=
  [.transcript, .analyzing, .generating]

/-- The mutable state touched by `analyze`: the hook's `useState` cells
plus the closure variable `progressIndex` and whether the registered
interval is still alive. The response payload is irrelevant to the
progress claims, so `result` stores only its presence. -/
structure AnalyzerState where
  result : Option Unit
  isLoading : Bool
  error : Option String
  errorCode : Option String
  progress : AnalysisProgress
  progressIndex : Nat
  timerActive : Bool
deriving DecidableEq, Repr

/-- The synchronous prologue of `analyze`: reset the hook state, publish
the `fetching` entry, and register the interval with `progressIndex = 0`. -/
def analyzeStart (s : AnalyzerState) : AnalyzerState :=
  { s with
    isLoading := true
    error := none
    errorCode := none
    result := none
    progress := progressSteps .fetching
    progressIndex := 0
    timerActive := true }

/-- One firing of the interval callback (it fires only while the interval
is alive): publish the next entry of `progressUpdates` and advance
`progressIndex`, or do nothing once the list is exhausted. -/
def intervalTick (s : AnalyzerState) : AnalyzerState :=
  if s.timerActive then
    if s.progressIndex < progressUpdates.length then
      { s with
        progress := progressSteps (progressUpdates.getD s.progressIndex .idle)
        progressIndex := s.progressIndex + 1 }
    else s
  else s

/-- Fulfilment path of `analyze`: clear the interval, publish `complete`,
store the result, and (via `finally`) drop `isLoading`. -/
def settleSuccess (s : AnalyzerState) : AnalyzerState :=
  { s with
    timerActive := false
    progress := progressSteps .complete
    result := some ()
    isLoading := false }

/-- Rejection path of `analyze` (the `catch` block followed by `finally`):
store the message and code, reset the progress to `initialProgress`, and
drop `isLoading`.  The source never clears the interval on this path, so
`timerActive` is left as it was. -/
def settleFail (msg code : String) (s : AnalyzerState) : AnalyzerState :=
  { s with
    error := some msg
    errorCode := some code
    progress := initialProgress
    isLoading := false }

/-- The hook state before any analysis is started. -/
def initAnalyzer : AnalyzerState :=
  { result := none
    isLoading := false
    error := none
    errorCode := none
    progress := initialProgress
    progressIndex := 0
    timerActive := false }

/-! ## Concrete fixtures used to instantiate the theorems -/

/-- A primary-tier insight with identifier `"a"` and rank 1. -/
def insightA : Insight :=
  { id := "a", rank := 1, title := "A", core_point := "pa"
    supporting_context := none, deep_dive_content := none, is_top_five := true }

/-- A primary-tier insight with identifier `"b"` and rank 2. -/
def insightB : Insight :=
  { id := "b", rank := 2, title := "B", core_point := "pb"
    supporting_context := none, deep_dive_content := none, is_top_five := true }

/-- A secondary-tier insight with identifier `"c"` and rank 3. -/
def insightC : Insight :=
  { id := "c", rank := 3, title := "C", core_point := "pc"
    supporting_context := none, deep_dive_content := none, is_top_five := false }

/-- Fresh filter-mode state over primary `[A, B]`. -/
def exFilter : InteractionState :=
  { topInsights := [insightA, insightB], additionalInsights := []
    skippedIds := [], expandedId := none
    showingAdditional := false, lastSkippedId := none }

/-- Fresh cursor-mode state over primary `[A, B]` and secondary `[C]`. -/
def exStack0 : CardStackState :=
  { topInsights := [insightA, insightB], additionalInsights := [insightC]
    currentIndex := 0, showingAdditional := false
    skippedInsights := [], savedInsights := []
    selectedInsight := none, lastAction := none }

/-- Terminal cursor-mode state: the single primary insight was skipped. -/
def exStack1 : CardStackState :=
  { topInsights := [insightA], additionalInsights := []
    currentIndex := 1, showingAdditional := false
    skippedInsights := [some insightA], savedInsights := []
    selectedInsight := none, lastAction := some ⟨.skip, some insightA⟩ }

/-! ## Theorems -/

/-- Membership in the modelled JS string set after insertion. -/
theorem mem_setInsert (l : List String) (id a : String) :
    a ∈ setInsert l id ↔ a ∈ l ∨ a = id := by
  unfold setInsert
  split
  · constructor
    · exact Or.inl
    · rintro (h | rfl) <;> assumption
  · simp

/-- Claim C5, counterexample: at offset −101 and velocity 600 the save
condition of the claim holds (velocity exceeds 500), yet the classifier
returns skip, not save: the claim's save clause fails there. -/
theorem claim5_counterexample :
    handleDragEnd (-101) 600 ≠ SwipeDecision.save := by decide

/-- Claim C5 as amended: the skip branch is checked first, so the
classifier returns skip whenever offset is below −100 or velocity below
−500; only otherwise does it return save when offset exceeds 100 or
velocity exceeds 500; otherwise none.  The four quoted examples hold. -/
theorem claim5_classifier (o v : ℚ) :
    ((o < -100 ∨ v < -500) → handleDragEnd o v = .skip) ∧
    (¬(o < -100 ∨ v < -500) → (o > 100 ∨ v > 500) → handleDragEnd o v = .save) ∧
    (¬(o < -100 ∨ v < -500) → ¬(o > 100 ∨ v > 500) → handleDragEnd o v = .noDecision) ∧
    handleDragEnd 101 0 = .save ∧ handleDragEnd (-101) 0 = .skip ∧
    handleDragEnd 50 0 = .noDecision ∧ handleDragEnd 0 600 = .save := by
  refine ⟨?_, ?_, ?_, by decide, by decide, by decide, by decide⟩
  · intro h
    simp [handleDragEnd, h]
  · intro h1 h2
    simp [handleDragEnd, h1, h2]
  · intro h1 h2
    simp [handleDragEnd, h1, h2]

/-- Claim C5 witness: the amended classifier description evaluated at
offset −200, velocity 0. -/
theorem claim5_witness : handleDragEnd (-200) 0 = SwipeDecision.skip :=
  (claim5_classifier (-200) 0).1 (Or.inl (by norm_num))

/-- Claim C10: when a released drag satisfies a skip condition and a save
condition simultaneously, the classifier returns skip — the
negative-direction branch has priority. -/
theorem claim10_skip_priority (o v : ℚ)
    (hskip : o < -100 ∨ v < -500) (_hsave : o > 100 ∨ v > 500) :
    handleDragEnd o v = SwipeDecision.skip := by
  unfold handleDragEnd
  rw [if_pos hskip]

/-- Claim C10 witness: offset −101 with velocity 600 satisfies both
conditions and classifies as skip. -/
theorem claim10_witness : handleDragEnd (-101) 600 = SwipeDecision.skip :=
  claim10_skip_priority (-101) 600 (Or.inl (by norm_num)) (Or.inr (by norm_num))

/-- Claim C2, counterexample: `"z"` is stale (absent from the working
sequence) and not yet skipped, yet `skipInsight "z"` changes the skip
set, the recorded last-skipped identifier, and the skipped count. -/
theorem claim2_counterexample :
    ("z" ∉ (allInsightsFilter exFilter).map Insight.id) ∧
    "z" ∉ exFilter.skippedIds ∧
    (skipInsight "z" exFilter).skippedIds ≠ exFilter.skippedIds ∧
    (skipInsight "z" exFilter).lastSkippedId ≠ exFilter.lastSkippedId ∧
    skippedCount (skipInsight "z" exFilter) ≠ skippedCount exFilter := by
  decide

/-- Claim C2 as amended: `skipInsight id` is unconditional — it always
records `id` as the last-skipped identifier; when `id` is already in the
skip set, the skip set and the skipped count are unchanged; when `id` is
stale the visible sequence is unchanged (the stale identifier filters
nothing out). -/
theorem claim2_skip_behavior (s : InteractionState) (id : String) :
    (skipInsight id s).lastSkippedId = some id ∧
    (id ∈ s.skippedIds → (skipInsight id s).skippedIds = s.skippedIds ∧
      skippedCount (skipInsight id s) = skippedCount s) ∧
    (id ∉ (allInsightsFilter s).map Insight.id →
      visibleInsights (skipInsight id s) = visibleInsights s) := by
  refine ⟨rfl, ?_, ?_⟩
  · intro h
    simp [skipInsight, setInsert, h, skippedCount]
  · intro h
    show List.filter _ (allInsightsFilter s) = List.filter _ (allInsightsFilter s)
    apply List.filter_congr
    intro x hx
    have hne : x.id ≠ id := fun he => h (he ▸ List.mem_map_of_mem Insight.id hx)
    simp [skipInsight, mem_setInsert, hne]

/-- Claim C2 witness: skipping the already-skipped `"b"` leaves the skip
set unchanged, and skipping the stale `"z"` leaves the visible sequence
unchanged. -/
theorem claim2_witness :
    (skipInsight "b" (skipInsight "b" exFilter)).skippedIds =
      (skipInsight "b" exFilter).skippedIds ∧
    visibleInsights (skipInsight "z" exFilter) = visibleInsights exFilter :=
  ⟨((claim2_skip_behavior (skipInsight "b" exFilter) "b").2.1 (by decide)).1,
    (claim2_skip_behavior exFilter "z").2.2 (by decide)⟩

/-- Claim C3, counterexample: after `skipInsight` on B, B is no longer
visible, yet `expandInsight` on B still sets the detail focus to B — the
expand is not rejected. -/
theorem claim3_counterexample :
    (insightB.id ∉ (visibleInsights (skipInsight insightB.id exFilter)).map Insight.id) ∧
    (expandInsight insightB.id (skipInsight insightB.id exFilter)).expandedId =
      some insightB.id := by
  decide

/-- Claim C3 as amended: `expandInsight id` performs no visibility check —
it unconditionally sets the detail focus to `id`, even for a skipped or
stale identifier; only the host UI restricts which ids it is called
with. -/
theorem claim3_expand_unconditional (s : InteractionState) (id : String) :
    (expandInsight id s).expandedId = some id := rfl

/-- Claim C4, counterexample: `exStack1` is terminal (`isFinished`), yet
the left swipe handler still advances the cursor and grows the skip
record — deciding with no current insight is not a no-op. -/
theorem claim4_counterexample :
    isFinished exStack1 = true ∧
    (handleSwipeLeft exStack1).currentIndex ≠ exStack1.currentIndex ∧
    (handleSwipeLeft exStack1).skippedInsights ≠ exStack1.skippedInsights := by
  decide

/-- Claim C4 as amended: deciding at the terminal cursor does not crash —
indexing past the end of the working sequence yields undefined (`none`) —
but it is not a no-op: either handler still advances the cursor by one
and appends an undefined slot to its record. The rendered UI never
invokes the handlers at terminal (buttons and cards are hidden), which is
the only guard. -/
theorem claim4_terminal_decide (s : CardStackState)
    (h : (allInsights s).length ≤ s.currentIndex) :
    (handleSwipeLeft s).currentIndex = s.currentIndex + 1 ∧
    (handleSwipeLeft s).skippedInsights = s.skippedInsights ++ [none] ∧
    (handleSwipeRight s).currentIndex = s.currentIndex + 1 ∧
    (handleSwipeRight s).savedInsights = s.savedInsights ++ [none] := by
  have hnone : (allInsights s).get? s.currentIndex = none := List.get?_eq_none.mpr h
  refine ⟨rfl, ?_, rfl, ?_⟩ <;> simp [handleSwipeLeft, handleSwipeRight, hnone] <;> exact h

/-- Claim C4 witness: the amended statement evaluated at the terminal
fixture `exStack1`. -/
theorem claim4_witness :
    (handleSwipeLeft exStack1).currentIndex = exStack1.currentIndex + 1 ∧
    (handleSwipeLeft exStack1).skippedInsights = exStack1.skippedInsights ++ [none] ∧
    (handleSwipeRight exStack1).currentIndex = exStack1.currentIndex + 1 ∧
    (handleSwipeRight exStack1).savedInsights = exStack1.savedInsights ++ [none] :=
  claim4_terminal_decide exStack1 (by decide)

/-- Claim C8: revealing the secondary tier is idempotent, produces the
primary tier followed by the secondary tier in order, leaves the cursor
untouched, and keeps every already-decided prefix of the working
sequence intact. -/
theorem claim8_reveal (s : CardStackState) :
    handleShowMore (handleShowMore s) = handleShowMore s ∧
    allInsights (handleShowMore s) = s.topInsights ++ s.additionalInsights ∧
    (handleShowMore s).currentIndex = s.currentIndex ∧
    (s.currentIndex ≤ s.topInsights.length →
      (allInsights (handleShowMore s)).take s.currentIndex =
        (allInsights s).take s.currentIndex) := by
  refine ⟨rfl, rfl, rfl, ?_⟩
  intro h
  unfold allInsights handleShowMore
  cases hsa : s.showingAdditional
  · simp
    exact Or.inr h
  · simp

/-- Claim C8 witness: revealing over fresh `[A, B]` + `[C]` at cursor 0 is
idempotent and preserves the decided prefix. -/
theorem claim8_witness :
    handleShowMore (handleShowMore exStack0) = handleShowMore exStack0 ∧
    allInsights (handleShowMore exStack0) =
      exStack0.topInsights ++ exStack0.additionalInsights ∧
    (handleShowMore exStack0).currentIndex = exStack0.currentIndex ∧
    (allInsights (handleShowMore exStack0)).take exStack0.currentIndex =
      (allInsights exStack0).take exStack0.currentIndex :=
  ⟨(claim8_reveal exStack0).1, (claim8_reveal exStack0).2.1,
    (claim8_reveal exStack0).2.2.1, (claim8_reveal exStack0).2.2.2 (by decide)⟩

/-- Either swipe handler advances the cursor by exactly one. -/
theorem decideStep_currentIndex (d : Decision) (s : CardStackState) :
    (decideStep d s).currentIndex = s.currentIndex + 1 := by
  cases d <;> rfl

/-- Folding a decision sequence advances the cursor by its length. -/
theorem runDecisions_currentIndex (ds : List Decision) (s : CardStackState) :
    (runDecisions ds s).currentIndex = s.currentIndex + ds.length := by
  induction ds generalizing s with
  | nil => rfl
  | cons d ds ih =>
    show (runDecisions ds (decideStep d s)).currentIndex = _
    rw [ih, decideStep_currentIndex, List.length_cons]
    omega

/-- A nonempty decision sequence leaves a stored last action. -/
theorem runDecisions_lastAction_isSome (ds : List Decision) (s : CardStackState)
    (h : ds ≠ []) : (runDecisions ds s).lastAction.isSome := by
  induction ds generalizing s with
  | nil => exact absurd rfl h
  | cons d ds ih =>
    show (runDecisions ds (decideStep d s)).lastAction.isSome
    cases ds with
    | nil => cases d <;> rfl
    | cons e es => exact ih (decideStep d s) (by simp)

/-- Claim C6: from cursor 0, any sequence of N decisions leaves the cursor
at N, and one further undo leaves it at N − 1 (for N ≥ 1). -/
theorem claim6_cursor_count (ds : List Decision) (s : CardStackState)
    (h0 : s.currentIndex = 0) (_hav : ds.length ≤ (allInsights s).length) :
    (runDecisions ds s).currentIndex = ds.length ∧
    (1 ≤ ds.length →
      (handleUndo (runDecisions ds s)).currentIndex = ds.length - 1) := by
  have hc : (runDecisions ds s).currentIndex = ds.length := by
    rw [runDecisions_currentIndex, h0]
    omega
  refine ⟨hc, fun hlen => ?_⟩
  have hne : ds ≠ [] := by
    intro he
    rw [he] at hlen
    exact absurd hlen (by simp)
  obtain ⟨la, hla⟩ :=
    Option.isSome_iff_exists.mp (runDecisions_lastAction_isSome ds s hne)
  have hpos : (runDecisions ds s).currentIndex > 0 := by omega
  unfold handleUndo
  rw [hla]
  simp [hpos, hc]
  rw [if_pos (show 0 < ds.length by omega)]

/-- Claim C6 witness: two decisions from the fresh fixture put the cursor
at 2, and one undo brings it back to 1. -/
theorem claim6_witness :
    (runDecisions [Decision.save, Decision.skip] exStack0).currentIndex = 2 ∧
    (handleUndo (runDecisions [Decision.save, Decision.skip] exStack0)).currentIndex = 1 := by
  have h := claim6_cursor_count [Decision.save, Decision.skip] exStack0 rfl (by decide)
  exact ⟨h.1, h.2 (by decide)⟩

/-- Claim C7: provided the current insight's identifier is not already in
either record, deciding it and then undoing leaves its identifier absent
from both records, restores the cursor, and a second consecutive undo
changes nothing. -/
theorem claim7_undo_inverse (s : CardStackState) (d : Decision) (X : Insight)
    (_hcur : (allInsights s).get? s.currentIndex = some X)
    (hsk : X.id ∉ recordIds s.skippedInsights)
    (hsv : X.id ∉ recordIds s.savedInsights) :
    X.id ∉ recordIds (handleUndo (decideStep d s)).skippedInsights ∧
    X.id ∉ recordIds (handleUndo (decideStep d s)).savedInsights ∧
    (handleUndo (decideStep d s)).currentIndex = s.currentIndex ∧
    handleUndo (handleUndo (decideStep d s)) = handleUndo (decideStep d s) := by
  cases d <;>
    simp [decideStep, handleSwipeLeft, handleSwipeRight, handleUndo,
      List.dropLast_concat, hsk, hsv]

/-- Claim C7 witness: saving insight A from the fresh fixture and undoing
removes `"a"` from both records, restores cursor 0, and a second undo is
the identity. -/
theorem claim7_witness :
    insightA.id ∉ recordIds (handleUndo (decideStep Decision.save exStack0)).skippedInsights ∧
    insightA.id ∉ recordIds (handleUndo (decideStep Decision.save exStack0)).savedInsights ∧
    (handleUndo (decideStep Decision.save exStack0)).currentIndex = exStack0.currentIndex ∧
    handleUndo (handleUndo (decideStep Decision.save exStack0)) =
      handleUndo (decideStep Decision.save exStack0) :=
  claim7_undo_inverse exStack0 Decision.save insightA (by decide) (by decide) (by decide)

/-- Claim C1 (code bug evidence): when the request rejects, the `catch`
block resets the progress to `initialProgress` but never clears the
interval, so the timer stays active and the very next tick overwrites the
idle reset with the `transcript` entry (25%). -/
theorem claim1_failure_leaves_timer :
    (settleFail "Request failed" "UNKNOWN_ERROR" (analyzeStart initAnalyzer)).progress =
      initialProgress ∧
    (settleFail "Request failed" "UNKNOWN_ERROR" (analyzeStart initAnalyzer)).timerActive = true ∧
    (intervalTick (settleFail "Request failed" "UNKNOWN_ERROR" (analyzeStart initAnalyzer))).progress =
      progressSteps .transcript := by
  decide

/-- Claim C9, counterexample: starting the simulator publishes the
`fetching` entry at 10 percent, not 0 percent. -/
theorem claim9_counterexample :
    (analyzeStart initAnalyzer).progress.step = ProgressStep.fetching ∧
    (analyzeStart initAnalyzer).progress.percent ≠ 0 := by
  decide

/-- Claim C9 as amended: starting the simulator publishes `fetching` at
10 percent with its message, successive ticks while the request is pending
publish `transcript`, `analyzing`, `generating` in that order with their
fixed entries, and from the third tick on further ticks change nothing, so
ticks alone never pass `generating`. -/
theorem claim9_progress_schedule (s : AnalyzerState) :
    (analyzeStart s).progress = progressSteps .fetching ∧
    (progressSteps ProgressStep.fetching).percent = 10 ∧
    (intervalTick (analyzeStart s)).progress = progressSteps .transcript ∧
    (intervalTick (intervalTick (analyzeStart s))).progress = progressSteps .analyzing ∧
    (intervalTick^[3] (analyzeStart s)).progress = progressSteps .generating ∧
    ∀ k, intervalTick^[k + 3] (analyzeStart s) = intervalTick^[3] (analyzeStart s) := by
  refine ⟨rfl, rfl, rfl, rfl, rfl, fun k => ?_⟩
  rw [Function.iterate_add_apply]
  exact Function.iterate_fixed rfl k

end LeanIt
